import Mathlib

/-!
Verification development for the UPS collection booking client
(`src/scripts/ups-client.ts`).  The definitions below are a shallow
embedding of the client: pure computations (scheduler heuristics, JS
falsiness defaulting, special-instructions resolution, element-resolver
matching) are translated directly; the stateful operations
(`ensureBrowser`, `login`, `fillForm`, `submit`, `book`, `reset`) are
modelled as functions of an explicit environment (the outcomes of the
browser/DOM primitives they call) and of the persisted session state,
returning the JSON-shaped result objects the source builds, together
with traces of the file-system and page operations they perform.
Thrown JS exceptions are modelled with `Except`; a caught exception
region corresponds to a `match` on the environment field that says
whether the primitive inside it threw.
-/

set_option maxHeartbeats 1000000

namespace UPSSpec

/-! ## JavaScript value/falsiness helpers -/

/-- The resolved value of a JS async function call, as far as the claims
need it: either `undefined` (a bare `return`, or falling off the end of a
`void` function) or a boolean. -/
inductive JSValue where
  | undefined
  | boolean (b : Bool)
  deriving DecidableEq

/-- JS `o || d` for a number held in an `Option`: `undefined` and `0` are
falsy, so both select the default (source line 449/450 pattern). -/
def jsOrNat (o : Option Nat) (d : Nat) : Nat :=
  match o with
  | none => d
  | some n => if n = 0 then d else n

/-- JS `o || d` for a string held in an `Option`: `undefined` and `""` are
falsy, so both select the default. -/
def jsOrStr (o : Option String) (d : String) : String :=
  match o with
  | none => d
  | some s => if s = "" then d else s

/-- JS truthiness of an optional string: `undefined` and `""` are falsy. -/
def truthyStr (o : Option String) : Bool :=
  match o with
  | none => false
  | some s => s != ""

/-! ## String matching helpers (CSS `*=` attribute matching) -/

/-- Test `startsWithChars nee hay`: `nee` is a prefix of `hay`. -/
def startsWithChars : List Char → List Char → Bool
  | [], _ => true
  | _ :: _, [] => false
  | a :: as, b :: bs => a == b && startsWithChars as bs

/-- Test `hasSubChars nee hay`: `nee` occurs as a contiguous sublist of `hay`. -/
def hasSubChars : List Char → List Char → Bool
  | nee, [] => nee.isEmpty
  | nee, c :: rest => startsWithChars nee (c :: rest) || hasSubChars nee rest

/-- Case-insensitive substring test (CSS `[attr*="nee" i]`). -/
def strHasCI (hay nee : String) : Bool :=
  hasSubChars nee.toLower.toList hay.toLower.toList

/-- Case-sensitive substring test (CSS `[attr*="nee"]` without the `i` flag). -/
def strHasCS (hay nee : String) : Bool :=
  hasSubChars nee.toList hay.toList

def optHasCI (o : Option String) (nee : String) : Bool :=
  match o with
  | none => false
  | some s => strHasCI s nee

def optHasCS (o : Option String) (nee : String) : Bool :=
  match o with
  | none => false
  | some s => strHasCS s nee

/-- JS `label.toLowerCase().replace(/\s+/g, "")` (source line 686). -/
def stripWS (s : String) : String :=
  String.mk (s.toList.filter (fun c => !c.isWhitespace))

/-! ## Paths and constants (source lines 33-54) -/

def SCREENSHOT_DIR : String := "/home/USER/biz/.playwright-mcp"

structure UPSDefaults where
  company : String
  address : String
  city : String
  postalCode : String
  telephone : String
  collectFrom : String
  email : String
  paymentAccount : String
  deriving DecidableEq

def DEFAULTS : UPSDefaults :=
  { company := "YOUR_COMPANY"
    address := "YOUR_WAREHOUSE_ADDRESS_LINE_1, YOUR_WAREHOUSE_ADDRESS_LINE_2"
    city := "YOUR_CITY"
    postalCode := "YOUR_POSTCODE"
    telephone := "YOUR_PHONE_NUMBER"
    collectFrom := "Front Door"
    email := "YOUR_LOGISTICS_EMAIL"
    paymentAccount := "YOUR_UPS_ACCOUNT" }

/-! ## Scheduler heuristics (source lines 377-409)

`getSmartDate` reads the Europe/London wall clock.  We model that wall
clock directly: `day` is the number of civil days since 1970-01-01 (a
Thursday) of the current London calendar date and `hour` is the current
London hour.  `Date.setDate(getDate()+1)` is exactly `day + 1`;
`Date.getDay()` (0 = Sunday) is `(day + 4) % 7`. -/

structure UKTime where
  day : Nat
  hour : Nat
  deriving DecidableEq

/-- JS `Date.getDay()` of a civil day number (0 = Sunday .. 6 = Saturday);
1970-01-01 (day 0) was a Thursday (= 4). -/
def getDay (n : Nat) : Nat := (n + 4) % 7

/-- The loop condition of source line 391: `getDay() === 0 || getDay() === 6`. -/
def isWeekendDay (n : Nat) : Bool := getDay n == 0 || getDay n == 6

/-- Fuel-bounded translation of the `while` loop at source lines 391-393.
From any day the loop body runs at most twice (Saturday, Sunday), so
fuel 7 makes the bounded loop extensionally equal to the unbounded one. -/
def skipWeekendsGo : Nat → Nat → Nat
  | 0, d => d
  | fuel + 1, d => if isWeekendDay d then skipWeekendsGo fuel (d + 1) else d

def skipWeekends (d : Nat) : Nat := skipWeekendsGo 7 d

/-- Gregorian leap year (as used by JS `Date`). -/
def isLeap (y : Nat) : Bool := (y % 4 == 0 && y % 100 != 0) || y % 400 == 0

def daysInYear (y : Nat) : Nat := if isLeap y then 366 else 365

def monthLengths (leap : Bool) : List Nat :=
  [31, if leap then 29 else 28, 31, 30, 31, 30, 31, 31, 30, 31, 30, 31]

/-- Fuel-bounded year extraction for the civil date of a day number; each
step consumes at least 365 days, so fuel `n / 365 + 1` suffices. -/
def yearFromGo : Nat → Nat → Nat → Nat × Nat
  | 0, y, nd => (y, nd)
  | fuel + 1, y, nd =>
    if nd < daysInYear y then (y, nd) else yearFromGo fuel (y + 1) (nd - daysInYear y)

def monthFromDoy : List Nat → Nat → Nat → Nat × Nat
  | [], m, doy => (m, doy)
  | len :: rest, m, doy => if doy < len then (m, doy) else monthFromDoy rest (m + 1) (doy - len)

def pad2 (n : Nat) : String := if n < 10 then ("0" ++ toString n) else toString n

def pad4 (n : Nat) : String :=
  if n < 10 then ("000" ++ toString n)
  else if n < 100 then ("00" ++ toString n)
  else if n < 1000 then ("0" ++ toString n)
  else toString n

/-- The date part of `Date.toISOString()` (source line 395): the
`YYYY-MM-DD` rendering of a civil day number. -/
def toISODate (n : Nat) : String :=
  let yd := yearFromGo (n / 365 + 1) 1970 n
  let md := monthFromDoy (monthLengths (isLeap yd.1)) 1 yd.2
  pad4 yd.1 ++ "-" ++ pad2 md.1 ++ "-" ++ pad2 (md.2 + 1)

/-- Model of `getSmartDate` (source lines 378-396): if the London hour is ≥ 13
target the next calendar day, else today; then advance past Saturday and
Sunday; render as `YYYY-MM-DD`. -/
def getSmartDate (t : UKTime) : String :=
  toISODate (skipWeekends (if 13 ≤ t.hour then t.day + 1 else t.day))

/-- Model of `getSmartEarliestTime` (source lines 399-409). -/
def getSmartEarliestTime (hour : Nat) : String :=
  if 12 ≤ hour ∧ hour < 17 then (toString (hour + 1) ++ ":00") else ("12:00")

/-! ## Caller-supplied options, form state, results -/

/-- Model of `FillFormOptions` (source lines 70-78).  JS `undefined` is `none`. -/
structure FillFormOptions where
  date : Option String := none
  packages : Option Nat := none
  weight : Option Nat := none
  earliestTime : Option String := none
  latestTime : Option String := none
  doorCode : Option String := none
  specialInstructions : Option String := none
  deriving DecidableEq

/-- Source lines 453-456: explicit instructions, else a truthy door code
rendered as `Door code * <code> #`, else whatever (falsy) value
`options.specialInstructions` held. -/
def resolveSpecialInstructions (si dc : Option String) : Option String :=
  if !truthyStr si && truthyStr dc then some ("Door code * " ++ dc.getD ("") ++ " #")
  else si

/-- Model of `FormState` as populated on the `fillForm` success path
(source lines 628-639). -/
structure FormState where
  date : String
  packages : Nat
  weight : Nat
  earliestTime : String
  latestTime : String
  specialInstructions : Option String
  company : String
  address : String
  city : String
  postalCode : String
  deriving DecidableEq

/-- The record produced by `extractConfirmation` (source lines 819-859):
every structured field is nullable. -/
structure ConfirmationRecord where
  confirmationNumber : Option String := none
  totalCharges : Option String := none
  collectionDate : Option String := none
  pageText : String := ""
  deriving DecidableEq

/-- The JSON-shaped result object returned by the operations.  Absent JS
keys are `none` / `false`. -/
structure OpResult where
  success : Bool := false
  error : Bool := false
  message : Option String := none
  screenshot : Option String := none
  reviewScreenshot : Option String := none
  fillScreenshot : Option String := none
  confirmationScreenshot : Option String := none
  errorScreenshot : Option String := none
  formState : Option FormState := none
  confirmation : Option ConfirmationRecord := none
  deriving DecidableEq

/-- A result carries at least one screenshot path. -/
def hasScreenshot (r : OpResult) : Bool :=
  r.screenshot.isSome || r.reviewScreenshot.isSome || r.fillScreenshot.isSome ||
    r.confirmationScreenshot.isSome || r.errorScreenshot.isSome

/-! ## Element resolver (source lines 649-718)

A page is modelled by the attribute sets of its input/textarea elements,
its `<label>` elements, its `<select>` elements and its radio buttons —
exactly the signals that the selectors of the resolver read. -/

structure InputEl where
  id : Option String := none
  nameAttr : Option String := none
  itype : Option String := none
  ariaLabel : Option String := none
  placeholder : Option String := none
  deriving DecidableEq

structure LabelEl where
  text : String
  forAttr : Option String := none
  /-- Index (into `FormPage.inputs`) of the structurally adjacent
  input/textarea matched by the xpath sibling fallback, if any. -/
  sibling : Option Nat := none
  deriving DecidableEq

structure SelectEl where
  ariaLabel : Option String := none
  nameAttr : Option String := none
  optionLabels : List String := []
  deriving DecidableEq

structure RadioEl where
  value : Option String := none
  labelText : Option String := none
  deriving DecidableEq

structure FormPage where
  inputs : List InputEl := []
  labels : List LabelEl := []
  selects : List SelectEl := []
  radios : List RadioEl := []
  deriving DecidableEq

/-- One iteration of the `fillField` variant loop (source lines 650-693):
the four strategies, tried in order, first hit wins; per-variant
exceptions are swallowed by the surrounding `try`. -/
def fillFieldOnce (page : FormPage) (label : String) : Option Nat :=
  match page.inputs.findIdx? (fun (e : InputEl) => optHasCI e.ariaLabel label) with
  | some i => some i
  | none =>
    match page.inputs.findIdx? (fun (e : InputEl) => optHasCI e.placeholder label) with
    | some i => some i
    | none =>
      match page.labels.find? (fun (l : LabelEl) => strHasCI l.text label) with
      | some l =>
        let viaLabel : Option Nat :=
          match l.forAttr with
          | some fa =>
            match page.inputs.findIdx? (fun (e : InputEl) => e.id == some fa) with
            | some i => some i
            | none => l.sibling
          | none => l.sibling
        match viaLabel with
        | some i => some i
        | none =>
          page.inputs.findIdx? (fun (e : InputEl) => optHasCI e.nameAttr (stripWS label.toLower))
      | none =>
        page.inputs.findIdx? (fun (e : InputEl) => optHasCI e.nameAttr (stripWS label.toLower))

/-- Model of `fillField` (source lines 649-696).  The second component is the JS
value the `Promise<void>` resolves with: every `return` in the source is
bare, so it is always `undefined`.  The first component records which
input (if any) was filled. -/
def fillField (page : FormPage) (variants : List String) (value : String) :
    Option Nat × JSValue :=
  match variants with
  | [] => (none, JSValue.undefined)
  | v :: rest =>
    match fillFieldOnce page v with
    | some i => (some i, JSValue.undefined)
    | none => fillField page rest value

/-- Model of `selectOption` (source lines 698-718): select by aria-label / name,
then radio by value / label text; misses are silent. -/
def selectOptionModel (page : FormPage) (variants : List String) (value : String) :
    Option Nat :=
  match variants with
  | [] => none
  | v :: rest =>
    match page.selects.findIdx?
        (fun s => optHasCI s.ariaLabel v || optHasCI s.nameAttr (stripWS v.toLower)) with
    | some i => some i
    | none =>
      match page.radios.findIdx?
          (fun r => optHasCS r.value value || optHasCI r.labelText value) with
      | some i => some i
      | none => selectOptionModel page rest value

/-! ## Authenticator (source lines 264-371) -/

/-- The environment of one `login()` call: the input elements present on
the login page when the username is sought, the input elements present
when the password is sought (same page or the next step), and whether
the post-submit success race (URL / logged-in marker) resolved. -/
structure LoginEnv where
  inputsAtLogin : List InputEl := []
  inputsAtPassword : List InputEl := []
  loginRaceOk : Bool := true
  now : Nat := 0
  deriving DecidableEq

/-- Find the first element matched by an ordered selector list: the
source waits for each selector in turn and keeps the first hit. -/
def findBySelectors (sels : List (InputEl → Bool)) (inputs : List InputEl) :
    Option InputEl :=
  match sels with
  | [] => none
  | s :: rest =>
    match inputs.find? s with
    | some e => some e
    | none => findBySelectors rest inputs

/-- The username selector list of source lines 284-293, in order. -/
def usernameSelectors : List (InputEl → Bool) :=
  [ fun e => e.nameAttr == some ("username"),
    fun e => e.id == some ("username"),
    fun e => e.itype == some ("email"),
    fun e => e.nameAttr == some ("email"),
    fun e => e.id == some ("email"),
    fun e => optHasCS e.id ("email"),
    fun e => optHasCI e.placeholder ("email"),
    fun e => optHasCI e.placeholder ("username") ]

/-- The password selector list of source lines 324-329, in order. -/
def passwordSelectors : List (InputEl → Bool) :=
  [ fun e => e.itype == some ("password"),
    fun e => e.nameAttr == some ("password"),
    fun e => e.id == some ("password"),
    fun e => optHasCS e.id ("password") ]

/-- Model of `login()` (source lines 264-371).  Navigation, waits, cookie-banner
dismissal and the non-error screenshots are side effects that do not
influence the returned value; the three `throw new Error(...)` sites are
the `Except.error` cases. -/
def login (env : LoginEnv) : Except String Bool :=
  match findBySelectors usernameSelectors env.inputsAtLogin with
  | none =>
    Except.error ("Could not find username field. See screenshot: " ++ SCREENSHOT_DIR ++
      "/ups-login-error-no-username-" ++ toString env.now ++ ".png")
  | some _ =>
    match findBySelectors passwordSelectors env.inputsAtPassword with
    | none =>
      Except.error ("Could not find password field. See screenshot: " ++ SCREENSHOT_DIR ++
        "/ups-login-error-no-password-" ++ toString env.now ++ ".png")
    | some _ =>
      if env.loginRaceOk then Except.ok true
      else
        Except.error ("Login failed. See screenshot: " ++ SCREENSHOT_DIR ++
          "/ups-login-error-" ++ toString env.now ++ ".png")

/-! ## Form filler (source lines 431-647) -/

def companyVariants : List String := ["Company", "Company Name", "company"]
def addressVariants : List String := ["Address Line 1", "Address", "Street Address", "addressLine1"]
def cityVariants : List String := ["City", "Town", "city"]
def postalCodeVariants : List String := ["Postal Code", "Postcode", "ZIP", "postalCode"]
def telephoneVariants : List String := ["Telephone", "Phone", "Contact Number", "telephone"]
def packageVariants : List String := ["Package", "Packages", "Number of Packages"]
def weightVariants : List String := ["Weight", "Total Weight"]
def instructionsVariants : List String := ["Special Instructions", "Instructions", "Notes"]
def locationVariants : List String := ["Preferred Collection Location", "Collect From", "Collection Location"]
def emailVariants : List String := ["Email", "Notification Email", "email"]

/-- One recorded `fillField` invocation of the fill sequence. -/
structure FillCall where
  variants : List String
  value : String
  outcome : Option Nat
  deriving DecidableEq

def fillSequence (page : FormPage) (specs : List (List String × String)) : List FillCall :=
  specs.map (fun p => ⟨p.1, p.2, (fillField page p.1 p.2).1⟩)

/-- Environment of one `fillForm` call: the login-step page states, the
collection-form page, the London wall clock, and whether one of the
unguarded steps inside the form `try` block (the radio-selection
`page.evaluate` / date-dropdown evaluates) threw — the caught
`formError` of source lines 609-618. -/
structure FillEnv where
  loginEnv : LoginEnv := {}
  formPage : FormPage := {}
  ukTime : UKTime := ⟨0, 0⟩
  structuralFailure : Option String := none
  now : Nat := 0
  deriving DecidableEq

/-- The fill-sequence argument list of source lines 507-537, computed
from the resolved options (independent of the page). -/
def expectedSpecs (opts : FillFormOptions) : List (List String × String) :=
  [ (companyVariants, DEFAULTS.company),
    (addressVariants, DEFAULTS.address),
    (cityVariants, DEFAULTS.city),
    (postalCodeVariants, DEFAULTS.postalCode),
    (telephoneVariants, DEFAULTS.telephone),
    (packageVariants, toString (jsOrNat opts.packages 1)),
    (weightVariants, toString (jsOrNat opts.weight 10)) ] ++
  (if truthyStr (resolveSpecialInstructions opts.specialInstructions opts.doorCode) then
    [(instructionsVariants,
      (resolveSpecialInstructions opts.specialInstructions opts.doorCode).getD (""))]
   else []) ++
  [(emailVariants, DEFAULTS.email)]

/-- Model of `fillForm` (source lines 431-647).  The call `await this.login()` is not
wrapped in a `try`, so a login failure propagates as a thrown exception.
The returned triple is (result object, recorded `fillField` calls, the
value of `this.page` after the call — always set, since `ensureBrowser`
assigns it before anything that can throw).  The `selectOption` call for
the collection location and the date/earliest-time dropdown evaluates
mutate only the page and are not recorded. -/
def fillForm (env : FillEnv) (opts : FillFormOptions) :
    Except String (OpResult × List FillCall × Option FormPage) :=
  match login env.loginEnv with
  | Except.error e => Except.error e
  | Except.ok _ =>
    let date := jsOrStr opts.date (getSmartDate env.ukTime)
    let earliestTime := jsOrStr opts.earliestTime (getSmartEarliestTime env.ukTime.hour)
    let packages := jsOrNat opts.packages 1
    let weight := jsOrNat opts.weight 10
    let specialInstructions :=
      resolveSpecialInstructions opts.specialInstructions opts.doorCode
    match env.structuralFailure with
    | some e =>
      Except.ok
        ({ error := true,
           message := some ("Form fill error: " ++ e),
           screenshot := some (SCREENSHOT_DIR ++ "/ups-form-error-" ++ toString env.now ++ ".png") },
         [], some env.formPage)
    | none =>
      let calls := fillSequence env.formPage (expectedSpecs opts)
      let st : FormState :=
        { date := date,
          packages := packages,
          weight := weight,
          earliestTime := earliestTime,
          latestTime := jsOrStr opts.latestTime ("18:00"),
          specialInstructions := specialInstructions,
          company := DEFAULTS.company,
          address := DEFAULTS.address,
          city := DEFAULTS.city,
          postalCode := DEFAULTS.postalCode }
      Except.ok
        ({ success := true,
           screenshot := some (SCREENSHOT_DIR ++ "/ups-form-preview-" ++ toString env.now ++ ".png"),
           formState := some st,
           message := some ("Form filled successfully. Please review the screenshot before calling submit.") },
         calls, some env.formPage)

/-! ## Session store (source lines 123-209) -/

structure SessionInfo where
  wsEndpoint : String
  createdAt : String
  formFilled : Bool
  loggedIn : Bool
  deriving DecidableEq

/-- Content of the session descriptor file: `JSON.parse` either throws
(malformed) or yields a `SessionInfo`. -/
inductive SessionBlob where
  | malformed
  | valid (s : SessionInfo)
  deriving DecidableEq

/-- The file-system state the client touches: the session descriptor and
the three singleton artifacts of the browser profile. -/
structure FS where
  session : Option SessionBlob := none
  singletonLock : Bool := false
  singletonSocket : Bool := false
  singletonCookie : Bool := false
  deriving DecidableEq

/-- Outcome of the reconnection attempt against a well-formed descriptor:
`connectOverCDP` threw (stale endpoint / closed browser), or connected
but exposed no context/page, or yielded a live page. -/
inductive ReconnectOutcome where
  | throwErr
  | noPage
  | gotPage
  deriving DecidableEq

/-- Environment of one `ensureBrowser` call.  `wsEndpoint` is the value
of `(browser as any)?.wsEndpoint?.()` after a fresh launch — the source
guards the descriptor write on it being defined. -/
structure EBEnv where
  reconnect : ReconnectOutcome := ReconnectOutcome.gotPage
  wsEndpoint : Option String := none
  nowStr : String := ""
  deriving DecidableEq

/-- A file-system operation performed by `ensureBrowser`, in order. -/
inductive FsOp where
  | delSession
  | delSingleton (f : String)
  | writeSession (s : SessionInfo)
  deriving DecidableEq

/-- The fresh-launch tail of `ensureBrowser` (source lines 153-200):
delete the singleton artifacts that exist, launch, and persist a new
descriptor only when the launched browser exposes a ws endpoint. -/
def launchFresh (fs : FS) (env : EBEnv) : FS × List FsOp :=
  let t1 := if fs.singletonLock then [FsOp.delSingleton ("SingletonLock")] else []
  let t2 := if fs.singletonSocket then [FsOp.delSingleton ("SingletonSocket")] else []
  let t3 := if fs.singletonCookie then [FsOp.delSingleton ("SingletonCookie")] else []
  let fs1 := { fs with singletonLock := false, singletonSocket := false, singletonCookie := false }
  match env.wsEndpoint with
  | some w =>
    let s : SessionInfo := ⟨w, env.nowStr, false, false⟩
    ({ fs1 with session := some (SessionBlob.valid s) }, t1 ++ t2 ++ t3 ++ [FsOp.writeSession s])
  | none => (fs1, t1 ++ t2 ++ t3)

/-- Model of `ensureBrowser` (source lines 123-201).  Returns (file system after,
file operations performed, whether an existing session page was reused).
Reconnection failures are caught by the source (`catch` at line 143):
the function is total — no error can escape to the caller. -/
def ensureBrowser (fs : FS) (env : EBEnv) : FS × List FsOp × Bool :=
  match fs.session with
  | some (SessionBlob.valid _) =>
    match env.reconnect with
    | ReconnectOutcome.gotPage => (fs, [], true)
    | ReconnectOutcome.noPage =>
      -- connected, but no context/page: falls through without deleting
      let lf := launchFresh fs env
      (lf.1, lf.2, false)
    | ReconnectOutcome.throwErr =>
      -- `catch`: delete the stale descriptor, then fall through
      let fs1 := { fs with session := none }
      let lf := launchFresh fs1 env
      (lf.1, FsOp.delSession :: lf.2, false)
  | some SessionBlob.malformed =>
    -- `JSON.parse` threw inside the `try`: same catch branch
    let fs1 := { fs with session := none }
    let lf := launchFresh fs1 env
    (lf.1, FsOp.delSession :: lf.2, false)
  | none =>
    let lf := launchFresh fs env
    (lf.1, lf.2, false)

/-! ## Submission pipeline (source lines 758-817) -/

/-- A page interaction performed by `submit` after the precondition
check: navigation, a click, a field fill, or a screenshot capture. -/
inductive PageInteraction where
  | navigate (url : String)
  | click
  | fillAct
  | shot (path : String)
  deriving DecidableEq

/-- Environment of one `submit` call: the `ensureBrowser` environment,
whether the Next / final-submit buttons were found, whether a step in
the `try` block threw (caught at line 807), and the extraction output. -/
structure SubmitEnv where
  eb : EBEnv := {}
  submitThrow : Option String := none
  nextButtonFound : Bool := true
  submitButtonFound : Bool := true
  confirmation : ConfirmationRecord := {}
  now : Nat := 0
  deriving DecidableEq

/-- The `try` body of `submit` (source lines 772-816), entered only when
the precondition check passed (or was skipped because no descriptor
file existed).  A thrown step is modelled at the head of the block. -/
def submitBody (env : SubmitEnv) : OpResult × List PageInteraction :=
  match env.submitThrow with
  | some e =>
    ({ error := true,
       message := some ("Submit failed: " ++ e),
       screenshot := some (SCREENSHOT_DIR ++ "/ups-submit-error-" ++ toString env.now ++ ".png") },
     [PageInteraction.shot (SCREENSHOT_DIR ++ "/ups-submit-error-" ++ toString env.now ++ ".png")])
  | none =>
    let revPath := SCREENSHOT_DIR ++ "/ups-review-" ++ toString env.now ++ ".png"
    let confPath := SCREENSHOT_DIR ++ "/ups-confirmation-" ++ toString env.now ++ ".png"
    let trace :=
      (if env.nextButtonFound then [PageInteraction.click] else []) ++
      [PageInteraction.shot revPath] ++
      (if env.submitButtonFound then [PageInteraction.click] else []) ++
      [PageInteraction.shot confPath]
    ({ success := true,
       screenshot := some confPath,
       reviewScreenshot := some revPath,
       confirmation := some env.confirmation,
       message := some ("Collection submitted successfully.") },
     trace)

/-- Model of `submit` (source lines 758-817).  It first acquires a page via
`ensureBrowser`, then re-reads the descriptor file: if the file exists
and `formFilled` is false it returns the error result without touching
the page; a malformed file makes the unguarded `JSON.parse` throw. -/
def submit (fs : FS) (env : SubmitEnv) :
    Except String (OpResult × List PageInteraction) :=
  let eb := ensureBrowser fs env.eb
  match eb.1.session with
  | some SessionBlob.malformed => Except.error ("Unexpected token in JSON")
  | some (SessionBlob.valid s) =>
    if s.formFilled = false then
      Except.ok
        ({ error := true,
           message := some ("Form has not been filled yet. Call fill-form first.") },
         [])
    else Except.ok (submitBody env)
  | none => Except.ok (submitBody env)

/-! ## Booking orchestrator (source lines 906-1063) -/

structure BookEnv where
  fill : FillEnv := {}
  bookThrow : Option String := none
  confirmation : ConfirmationRecord := {}
  now : Nat := 0
  deriving DecidableEq

/-- Model of `book` (source lines 906-1063): fill, early-return a fill error,
guard on `this.page`, then drive review → submit on the kept page; any
exception in that stage is caught and returned with both the fill
screenshot and an error screenshot. -/
def book (env : BookEnv) (opts : FillFormOptions) : Except String OpResult :=
  match fillForm env.fill opts with
  | Except.error e => Except.error e
  | Except.ok fr =>
    if fr.1.error then Except.ok fr.1
    else
      match fr.2.2 with
      | none =>
        Except.ok { error := true, message := some ("Browser page not available after fill") }
      | some _ =>
        match env.bookThrow with
        | some e =>
          Except.ok
            { error := true,
              message := some ("Booking failed during submit: " ++ e),
              fillScreenshot := fr.1.screenshot,
              errorScreenshot :=
                some (SCREENSHOT_DIR ++ "/ups-book-error-" ++ toString env.now ++ ".png") }
        | none =>
          Except.ok
            { success := true,
              fillScreenshot := fr.1.screenshot,
              reviewScreenshot := some (SCREENSHOT_DIR ++ "/ups-review-" ++ toString env.now ++ ".png"),
              confirmationScreenshot :=
                some (SCREENSHOT_DIR ++ "/ups-confirmation-" ++ toString env.now ++ ".png"),
              formState := fr.1.formState,
              confirmation := some env.confirmation,
              message := some ("Collection booked successfully.") }

/-! ## Session reset (source lines 872-895) -/

/-- The in-process client state `reset` touches: whether a browser
handle is held and whether the descriptor file exists. -/
structure ClientState where
  browserOpen : Bool
  sessionFileExists : Bool
  deriving DecidableEq

/-- Model of `reset` (source lines 872-895).  Here `closeErr` is the error message of a
throwing `browser.close()`, if it threw (caught at line 889); file
deletion of an existing descriptor succeeds. -/
def reset (closeErr : Option String) (st : ClientState) : ClientState × OpResult :=
  if st.browserOpen then
    match closeErr with
    | some e => (st, { error := true, message := some ("Reset failed: " ++ e) })
    | none =>
      (⟨false, false⟩,
       { success := true, message := some ("Browser session closed and cleared.") })
  else
    (⟨false, false⟩,
     { success := true, message := some ("Browser session closed and cleared.") })

/-! ## Concrete fixtures used by witnesses and counterexamples -/

/-- A login-step environment in which the two-step login succeeds: a
username input and then a password input are present. -/
def workingLoginEnv : LoginEnv :=
  { inputsAtLogin := [{ nameAttr := some ("username") }],
    inputsAtPassword := [{ itype := some ("password") }] }

def emptyFormState : FormState := ⟨"", 0, 0, "", "", none, "", "", "", ""⟩

/-- C1 counterexample scenario: a descriptor with `formFilled = false`
whose reconnection fails while the fresh launch exposes no ws endpoint. -/
def c1cexFS : FS := { session := some (SessionBlob.valid ⟨"ws://old", "t0", false, false⟩) }

def c1cexEnv : SubmitEnv :=
  { eb := { reconnect := ReconnectOutcome.throwErr, wsEndpoint := none, nowStr := "t1" },
    now := 7 }

def c1cexTrace : List PageInteraction :=
  [PageInteraction.click,
   PageInteraction.shot ("/home/USER/biz/.playwright-mcp/ups-review-7.png"),
   PageInteraction.click,
   PageInteraction.shot ("/home/USER/biz/.playwright-mcp/ups-confirmation-7.png")]

/-- C1 witness scenario: the reconnection succeeds, so `submit` reads
the live descriptor with `formFilled = false`. -/
def c1wFS : FS := { session := some (SessionBlob.valid ⟨"ws://live", "t0", false, true⟩) }

def c1wEnv : SubmitEnv := { eb := { reconnect := ReconnectOutcome.gotPage } }

/-- C2 counterexample scenario: page acquired by reusing the live
session, descriptor says `formFilled = false`. -/
def c2cexFS : FS := { session := some (SessionBlob.valid ⟨"ws://live", "t0", false, true⟩) }

def c2cexEnv : SubmitEnv := { eb := { reconnect := ReconnectOutcome.gotPage } }

def c2cexResult : OpResult :=
  { error := true, message := some ("Form has not been filled yet. Call fill-form first.") }

def c2wEnv : BookEnv := { fill := { loginEnv := workingLoginEnv } }

def c2wRes : OpResult :=
  match book c2wEnv {} with
  | Except.ok r => r
  | Except.error _ => {}

/-- C4 counterexample / witness scenario: stale descriptor, reconnection
throws, one singleton artifact present. -/
def c4cexFS : FS :=
  { session := some (SessionBlob.valid ⟨"ws://old", "t0", true, true⟩), singletonLock := true }

def c4cexEnv : EBEnv :=
  { reconnect := ReconnectOutcome.throwErr, wsEndpoint := none, nowStr := "t1" }

def c4wEnv : EBEnv :=
  { reconnect := ReconnectOutcome.throwErr, wsEndpoint := some ("ws://new"), nowStr := "t1" }

def c6wOpts : FillFormOptions := { doorCode := some ("123456789") }

def c6wEnv : FillEnv := { loginEnv := workingLoginEnv }

def c6wTriple : OpResult × List FillCall × Option FormPage :=
  match fillForm c6wEnv c6wOpts with
  | Except.ok t => t
  | Except.error _ => ({}, [], none)

def c10wOpts : FillFormOptions := { packages := some 0, weight := some 0 }

def c10wEnv : FillEnv := { loginEnv := workingLoginEnv }

def c10wTriple : OpResult × List FillCall × Option FormPage :=
  match fillForm c10wEnv c10wOpts with
  | Except.ok t => t
  | Except.error _ => ({}, [], none)

def c10wState : FormState := (c10wTriple.1.formState).getD emptyFormState

end UPSSpec

namespace UPSSpec

/-! ## Helper lemmas -/

theorem isWeekendDay_true_iff (d : Nat) :
    isWeekendDay d = true ↔ (d % 7 = 2 ∨ d % 7 = 3) := by
  simp only [isWeekendDay, getDay, Bool.or_eq_true, beq_iff_eq]
  omega

theorem isWeekendDay_false_iff (d : Nat) :
    isWeekendDay d = false ↔ (d % 7 ≠ 2 ∧ d % 7 ≠ 3) := by
  simp only [isWeekendDay, getDay, Bool.or_eq_false_iff, beq_eq_false_iff_ne, ne_eq]
  omega

/-- Closed form of the weekend-skipping loop: day numbers congruent to 2
mod 7 are Saturdays (advance 2), to 3 mod 7 Sundays (advance 1),
everything else is already a weekday. -/
theorem skipWeekends_eq (d : Nat) :
    skipWeekends d = if d % 7 = 2 then d + 2 else if d % 7 = 3 then d + 1 else d := by
  have h0 : skipWeekends d =
      if isWeekendDay d then skipWeekendsGo 6 (d + 1) else d := rfl
  have h1 : skipWeekendsGo 6 (d + 1) =
      if isWeekendDay (d + 1) then skipWeekendsGo 5 (d + 2) else d + 1 := rfl
  have h2 : skipWeekendsGo 5 (d + 2) =
      if isWeekendDay (d + 2) then skipWeekendsGo 4 (d + 3) else d + 2 := rfl
  by_cases hc2 : d % 7 = 2
  · have w0 : isWeekendDay d = true := (isWeekendDay_true_iff d).2 (Or.inl hc2)
    have w1 : isWeekendDay (d + 1) = true := (isWeekendDay_true_iff _).2 (by omega)
    have w2 : isWeekendDay (d + 2) = false := (isWeekendDay_false_iff _).2 (by omega)
    rw [h0, w0, h1, w1, h2, w2]
    simp [hc2]
  · by_cases hc3 : d % 7 = 3
    · have w0 : isWeekendDay d = true := (isWeekendDay_true_iff d).2 (Or.inr hc3)
      have w1 : isWeekendDay (d + 1) = false := (isWeekendDay_false_iff _).2 (by omega)
      rw [h0, w0, h1, w1]
      simp [hc2, hc3]
    · have w0 : isWeekendDay d = false := (isWeekendDay_false_iff d).2 ⟨hc2, hc3⟩
      rw [h0, w0]
      simp [hc2, hc3]

/-! ## Claim theorems -/

/-- C5: `getSmartDate` is a pure function of the Europe/London wall
clock: before 13:00 on a weekday it returns that same calendar day; from
13:00 it returns the next calendar day, advanced day-by-day past
Saturday and Sunday until a weekday (a Friday afternoon yields the
following Monday), rendered as a `YYYY-MM-DD` string by `toISODate`. -/
theorem c5_smart_date (t : UKTime) :
    (t.hour < 13 → isWeekendDay t.day = false → getSmartDate t = toISODate t.day) ∧
    (13 ≤ t.hour →
      getSmartDate t = toISODate (skipWeekends (t.day + 1)) ∧
      t.day + 1 ≤ skipWeekends (t.day + 1) ∧
      isWeekendDay (skipWeekends (t.day + 1)) = false ∧
      (∀ k, t.day + 1 ≤ k → k < skipWeekends (t.day + 1) → isWeekendDay k = true)) ∧
    (getDay t.day = 5 → 13 ≤ t.hour →
      getSmartDate t = toISODate (t.day + 3) ∧ getDay (t.day + 3) = 1) := by
  refine ⟨?_, ?_, ?_⟩
  · intro h1 h2
    unfold getSmartDate
    rw [if_neg (by omega), skipWeekends_eq]
    rw [isWeekendDay_false_iff] at h2
    rw [if_neg h2.1, if_neg h2.2]
  · intro h
    unfold getSmartDate
    rw [if_pos h]
    refine ⟨rfl, ?_, ?_, ?_⟩
    · rw [skipWeekends_eq]
      split_ifs <;> omega
    · rw [skipWeekends_eq]
      split_ifs <;> (rw [isWeekendDay_false_iff]; omega)
    · intro k hk1 hk2
      rw [skipWeekends_eq] at hk2
      rw [isWeekendDay_true_iff]
      split_ifs at hk2 <;> omega
  · intro h5 h13
    constructor
    · unfold getSmartDate
      rw [if_pos h13, skipWeekends_eq]
      have hmod : (t.day + 1) % 7 = 2 := by unfold getDay at h5; omega
      rw [if_pos hmod]
    · unfold getDay at h5 ⊢
      omega

/-- C5 witness: day 20469 is Friday 2026-01-16; at 14:00 London time the
smart date is the following Monday, 2026-01-19. -/
theorem c5_smart_date_witness :
    getDay 20469 = 5 ∧ getSmartDate ⟨20469, 14⟩ = "2026-01-19" := by
  refine ⟨by decide, ?_⟩
  have h := (c5_smart_date ⟨20469, 14⟩).2.2 (by decide) (by decide)
  exact h.1.trans (by rfl)

/-- C7: `getSmartEarliestTime` returns `(hour+1):00` for every London
hour in [12, 17) and the fixed default `12:00` for every hour outside
that interval. -/
theorem c7_smart_earliest_time (h : Nat) :
    (12 ≤ h → h < 17 → getSmartEarliestTime h = toString (h + 1) ++ ":00") ∧
    (h < 12 ∨ 17 ≤ h → getSmartEarliestTime h = "12:00") := by
  constructor
  · intro h1 h2
    unfold getSmartEarliestTime
    rw [if_pos ⟨h1, h2⟩]
  · intro hh
    unfold getSmartEarliestTime
    rw [if_neg (by omega)]

/-- C7 witness: hour 14 yields 15:00, hours 9 and 18 yield 12:00. -/
theorem c7_smart_earliest_time_witness :
    getSmartEarliestTime 14 = "15:00" ∧ getSmartEarliestTime 9 = "12:00" ∧
      getSmartEarliestTime 18 = "12:00" :=
  ⟨((c7_smart_earliest_time 14).1 (by omega) (by omega)).trans (by rfl),
   (c7_smart_earliest_time 9).2 (Or.inl (by omega)),
   (c7_smart_earliest_time 18).2 (Or.inr (by omega))⟩

end UPSSpec

namespace UPSSpec

/-- Shape lemma for the two `return` sites of `fillForm`: any returned
(non-thrown) result leaves `this.page` set, carries a screenshot, and on
success the fill-call trace and the reported `FormState` are determined
by the resolved options. -/
theorem fillForm_ok_cases (env : FillEnv) (opts : FillFormOptions) (r : OpResult)
    (calls : List FillCall) (pg : Option FormPage)
    (h : fillForm env opts = Except.ok (r, calls, pg)) :
    pg = some env.formPage ∧ hasScreenshot r = true ∧
    (r.success = true →
      calls = fillSequence env.formPage (expectedSpecs opts) ∧
      r.formState = some
        { date := jsOrStr opts.date (getSmartDate env.ukTime),
          packages := jsOrNat opts.packages 1,
          weight := jsOrNat opts.weight 10,
          earliestTime := jsOrStr opts.earliestTime (getSmartEarliestTime env.ukTime.hour),
          latestTime := jsOrStr opts.latestTime ("18:00"),
          specialInstructions := resolveSpecialInstructions opts.specialInstructions opts.doorCode,
          company := DEFAULTS.company,
          address := DEFAULTS.address,
          city := DEFAULTS.city,
          postalCode := DEFAULTS.postalCode }) := by
  unfold fillForm at h
  cases hl : login env.loginEnv with
  | error e => rw [hl] at h; cases h
  | ok b =>
    rw [hl] at h
    cases hs : env.structuralFailure with
    | some e =>
      rw [hs] at h
      simp only [Except.ok.injEq, Prod.mk.injEq] at h
      obtain ⟨hr, hc, hp⟩ := h
      subst hr hc hp
      refine ⟨rfl, rfl, ?_⟩
      intro habs
      cases habs
    | none =>
      rw [hs] at h
      simp only [Except.ok.injEq, Prod.mk.injEq] at h
      obtain ⟨hr, hc, hp⟩ := h
      subst hr hc hp
      exact ⟨rfl, rfl, fun _ => ⟨rfl, rfl⟩⟩

/-- Both branches of the `submit` try-block return a screenshot. -/
theorem submitBody_screenshot (env : SubmitEnv) :
    hasScreenshot (submitBody env).1 = true := by
  unfold submitBody
  cases env.submitThrow <;> rfl

/-- C3: the claim says a `fillForm` against an already-authenticated
session, where the site shows no login form at all, must not error.  The
code disagrees: `login()` exhausts every username selector on a page
with no inputs and throws the missing-username-field error, which
`fillForm` (which calls `login()` unconditionally and without a `try`)
propagates.  This theorem evaluates the code at that failing input. -/
theorem c3_login_fails_on_authenticated_page :
    login ({ inputsAtLogin := [], inputsAtPassword := [], loginRaceOk := true, now := 0 }) =
      Except.error ("Could not find username field. See screenshot: /home/USER/biz/.playwright-mcp/ups-login-error-no-username-0.png") ∧
    fillForm ({ loginEnv := { inputsAtLogin := [] } }) {} =
      Except.error ("Could not find username field. See screenshot: /home/USER/biz/.playwright-mcp/ups-login-error-no-username-0.png") :=
  ⟨rfl, rfl⟩

/-- C6 counterexample: the claim says a supplied `specialInstructions`
string always wins over a door code.  Supplying the empty string (a
supplied string, but JS-falsy) together with door code `123456789` makes
the door-code branch win. -/
theorem c6_empty_instructions_counterexample :
    resolveSpecialInstructions (some ("")) (some ("123456789")) =
      some ("Door code * 123456789 #") ∧
    resolveSpecialInstructions (some ("")) (some ("123456789")) ≠ some ("") := by
  exact ⟨rfl, by decide⟩

/-- C6 (amended): a supplied non-empty `specialInstructions` always wins
over a door code; otherwise a supplied non-empty door code `c` renders
exactly `Door code * c #`; otherwise the resolved text is falsy, in
which case the fill sequence contains no special-instructions fill at
all.  When the resolved text is truthy the sequence fills it verbatim.
Empty strings are treated as absent because the source tests JS
falsiness. -/
theorem c6_special_instructions (env : FillEnv) (opts : FillFormOptions) (r : OpResult)
    (calls : List FillCall) (pg : Option FormPage)
    (h : fillForm env opts = Except.ok (r, calls, pg)) (hsucc : r.success = true) :
    (truthyStr opts.specialInstructions = true →
      resolveSpecialInstructions opts.specialInstructions opts.doorCode =
        opts.specialInstructions) ∧
    (truthyStr opts.specialInstructions = false → ∀ c, opts.doorCode = some c → c ≠ "" →
      resolveSpecialInstructions opts.specialInstructions opts.doorCode =
        some ("Door code * " ++ c ++ " #")) ∧
    (truthyStr (resolveSpecialInstructions opts.specialInstructions opts.doorCode) = true →
      (⟨instructionsVariants,
        (resolveSpecialInstructions opts.specialInstructions opts.doorCode).getD (""),
        (fillField env.formPage instructionsVariants
          ((resolveSpecialInstructions opts.specialInstructions opts.doorCode).getD (""))).1⟩ :
        FillCall) ∈ calls) ∧
    (truthyStr (resolveSpecialInstructions opts.specialInstructions opts.doorCode) = false →
      ∀ fc ∈ calls, fc.variants ≠ instructionsVariants) := by
  obtain ⟨hp, hscr, hrest⟩ := fillForm_ok_cases env opts r calls pg h
  obtain ⟨hcalls, hfs⟩ := hrest hsucc
  subst hcalls
  refine ⟨?_, ?_, ?_, ?_⟩
  · intro ht
    unfold resolveSpecialInstructions
    rw [ht]
    rfl
  · intro hf c hc hne
    unfold resolveSpecialInstructions
    rw [hf, hc]
    have : truthyStr (some c) = true := by
      simp [truthyStr, hne]
    rw [this]
    rfl
  · intro ht
    unfold fillSequence
    apply List.mem_map.mpr
    refine ⟨(instructionsVariants,
      (resolveSpecialInstructions opts.specialInstructions opts.doorCode).getD ("")), ?_, rfl⟩
    unfold expectedSpecs
    rw [ht]
    simp
  · intro hf fc hfc
    unfold fillSequence at hfc
    obtain ⟨p, hpmem, hpeq⟩ := List.mem_map.mp hfc
    have hv : fc.variants = p.1 := by rw [← hpeq]
    have hmem1 : p.1 ∈ (expectedSpecs opts).map Prod.fst := List.mem_map_of_mem _ hpmem
    have hl : (expectedSpecs opts).map Prod.fst =
        [companyVariants, addressVariants, cityVariants, postalCodeVariants,
         telephoneVariants, packageVariants, weightVariants, emailVariants] := by
      unfold expectedSpecs
      rw [hf]
      simp
    rw [hv]
    rw [hl] at hmem1
    simp only [List.mem_cons, List.not_mem_nil, or_false] at hmem1
    rcases hmem1 with h1 | h1 | h1 | h1 | h1 | h1 | h1 | h1 <;> (rw [h1]; decide)

/-- C6 witness: door code `123456789` with no explicit instructions is
rendered as `Door code * 123456789 #`. -/
theorem c6_special_instructions_witness :
    resolveSpecialInstructions none (some ("123456789")) =
      some ("Door code * 123456789 #") :=
  ((c6_special_instructions c6wEnv c6wOpts c6wTriple.1 c6wTriple.2.1 c6wTriple.2.2
      rfl rfl).2.1 rfl ("123456789") rfl (by decide))

/-- C10: `fillForm` tests `options.packages || 1` and
`options.weight || 10`, so the JS-falsy value `0` selects the defaults:
they are both used for the fill (the sequence receives the strings `1`
and `10`) and reported in the returned `FormState`. -/
theorem c10_zero_defaults (env : FillEnv) (opts : FillFormOptions) (r : OpResult)
    (calls : List FillCall) (pg : Option FormPage) (st : FormState)
    (h : fillForm env opts = Except.ok (r, calls, pg))
    (hsucc : r.success = true) (hst : r.formState = some st) :
    (opts.packages = some 0 →
      st.packages = 1 ∧
      (⟨packageVariants, "1", (fillField env.formPage packageVariants ("1")).1⟩ : FillCall) ∈ calls) ∧
    (opts.weight = some 0 →
      st.weight = 10 ∧
      (⟨weightVariants, "10", (fillField env.formPage weightVariants ("10")).1⟩ : FillCall) ∈ calls) := by
  obtain ⟨hp, hscr, hrest⟩ := fillForm_ok_cases env opts r calls pg h
  obtain ⟨hcalls, hfs⟩ := hrest hsucc
  rw [hst] at hfs
  simp only [Option.some.injEq] at hfs
  subst hfs
  subst hcalls
  constructor
  · intro h0
    constructor
    · rw [h0]
      rfl
    · unfold fillSequence
      apply List.mem_map.mpr
      refine ⟨(packageVariants, toString (jsOrNat opts.packages 1)), ?_, ?_⟩
      · unfold expectedSpecs
        simp
      · rw [h0]
        rfl
  · intro h0
    constructor
    · rw [h0]
      rfl
    · unfold fillSequence
      apply List.mem_map.mpr
      refine ⟨(weightVariants, toString (jsOrNat opts.weight 10)), ?_, ?_⟩
      · unfold expectedSpecs
        simp
      · rw [h0]
        rfl

/-- C10 witness: packages = 0 and weight = 0 are reported as 1 and 10. -/
theorem c10_zero_defaults_witness :
    c10wState.packages = 1 ∧ c10wState.weight = 10 :=
  ⟨((c10_zero_defaults c10wEnv c10wOpts c10wTriple.1 c10wTriple.2.1 c10wTriple.2.2
      c10wState rfl rfl rfl).1 rfl).1,
   ((c10_zero_defaults c10wEnv c10wOpts c10wTriple.1 c10wTriple.2.1 c10wTriple.2.2
      c10wState rfl rfl rfl).2 rfl).1⟩

end UPSSpec

namespace UPSSpec

/-- C8 counterexample: the claim says the element-resolution fill
"returns false" when no strategy matches any variant.  `fillField` is
`Promise<void>`: every return site is a bare `return`, so the resolved
value is `undefined`, not the boolean `false` (and the caller never
inspects it). -/
theorem c8_fill_field_returns_undefined_counterexample :
    (fillField {} companyVariants ("YOUR_COMPANY")).2 ≠ JSValue.boolean false ∧
    (fillField {} companyVariants ("YOUR_COMPANY")).1 = none ∧
    (fillField {} companyVariants ("YOUR_COMPANY")).2 = JSValue.undefined := by
  refine ⟨by decide, rfl, rfl⟩

/-- C8 (amended): when no strategy matches any variant, `fillField`
returns normally with no value (`undefined` — its signature is
`Promise<void>`) rather than throwing, and performs no fill; it never
resolves with anything but `undefined`; and the Form Filler ignores the
outcome and runs the whole fill sequence — the recorded calls of a
successful `fillForm` are exactly the expected field list, whatever the
page contents (misses included). -/
theorem c8_fill_field_miss (page : FormPage) (variants : List String) (value : String) :
    ((variants.all (fun v => (fillFieldOnce page v).isNone)) = true →
      fillField page variants value = (none, JSValue.undefined)) ∧
    (fillField page variants value).2 = JSValue.undefined ∧
    (∀ env opts r calls pg, fillForm env opts = Except.ok (r, calls, pg) →
      r.success = true →
      calls.map (fun c => (c.variants, c.value)) = expectedSpecs opts) := by
  refine ⟨?_, ?_, ?_⟩
  · induction variants with
    | nil => intro _; rfl
    | cons v rest ih =>
      intro hall
      rw [List.all_cons, Bool.and_eq_true] at hall
      obtain ⟨h1, h2⟩ := hall
      rw [Option.isNone_iff_eq_none] at h1
      unfold fillField
      rw [h1]
      exact ih h2
  · induction variants with
    | nil => rfl
    | cons v rest ih =>
      unfold fillField
      cases hv : fillFieldOnce page v
      · exact ih
      · rfl
  · intro env opts r calls pg h hs
    obtain ⟨hp, hscr, hrest⟩ := fillForm_ok_cases env opts r calls pg h
    obtain ⟨hcalls, _⟩ := hrest hs
    subst hcalls
    simp only [fillSequence, List.map_map]
    have hid : ((fun (c : FillCall) => (c.variants, c.value)) ∘
        fun (p : List String × String) =>
          (⟨p.1, p.2, (fillField env.formPage p.1 p.2).1⟩ : FillCall)) = id := by
      funext p
      rfl
    rw [hid, List.map_id]

/-- C8 witness: on an empty page no strategy matches any weight-field
variant and the resolver completes with no fill and value `undefined`. -/
theorem c8_fill_field_miss_witness :
    fillField {} weightVariants ("10") = (none, JSValue.undefined) :=
  (c8_fill_field_miss {} weightVariants ("10")).1 (by decide)

/-- C9: `reset` with no live browser handle and no descriptor file is a
successful no-op, and a `reset` that succeeded leaves a state from which
a second `reset` also succeeds (whether or not `browser.close()` could
fail, since no handle remains). -/
theorem c9_reset_idempotent :
    (∀ e, reset e ⟨false, false⟩ =
      (⟨false, false⟩,
       { success := true, message := some ("Browser session closed and cleared.") })) ∧
    (∀ e1 e2 st, ((reset e1 st).2).success = true →
      ((reset e2 (reset e1 st).1).2).success = true ∧
        ((reset e2 (reset e1 st).1).2).error = false) := by
  constructor
  · intro e
    rfl
  · intro e1 e2 st h
    obtain ⟨b, f⟩ := st
    cases b
    · exact ⟨rfl, rfl⟩
    · cases e1 with
      | none => exact ⟨rfl, rfl⟩
      | some e => simp [reset] at h

/-- C9 witness: a fresh-state reset succeeds, and a second reset right
after a successful one succeeds. -/
theorem c9_reset_idempotent_witness :
    reset none ⟨false, false⟩ =
      (⟨false, false⟩,
       { success := true, message := some ("Browser session closed and cleared.") }) ∧
    ((reset none (reset none ⟨true, true⟩).1).2).success = true :=
  ⟨c9_reset_idempotent.1 none,
   (c9_reset_idempotent.2 none none ⟨true, true⟩ (by rfl)).1⟩

end UPSSpec

namespace UPSSpec

theorem getLast?_cons_append_singleton {α : Type} (a : α) (l : List α) (b : α) :
    (a :: (l ++ [b])).getLast? = some b := by
  rw [← List.cons_append, List.getLast?_concat]

/-- Shape of the fresh-launch tail: all singleton artifacts are cleared;
the descriptor is rewritten (with both flags false) exactly when the
launched browser exposes a ws endpoint, and the write is the last file
operation; with no endpoint the descriptor file is left as it was and no
write is performed. -/
theorem launchFresh_spec (fs : FS) (env : EBEnv) :
    (launchFresh fs env).1.singletonLock = false ∧
    (launchFresh fs env).1.singletonSocket = false ∧
    (launchFresh fs env).1.singletonCookie = false ∧
    (∀ w, env.wsEndpoint = some w →
      (launchFresh fs env).1.session =
        some (SessionBlob.valid ⟨w, env.nowStr, false, false⟩) ∧
      ∃ t, (launchFresh fs env).2 = t ++ [FsOp.writeSession ⟨w, env.nowStr, false, false⟩]) ∧
    (env.wsEndpoint = none →
      (launchFresh fs env).1.session = fs.session ∧
      ∀ s, FsOp.writeSession s ∉ (launchFresh fs env).2) := by
  obtain ⟨sess, sl, ss, sc⟩ := fs
  obtain ⟨rc, ws, nstr⟩ := env
  cases ws with
  | some w0 =>
    refine ⟨rfl, rfl, rfl, ?_, ?_⟩
    · intro w hw
      cases hw
      exact ⟨rfl, ⟨_, rfl⟩⟩
    · intro hn
      exact Option.noConfusion hn
  | none =>
    refine ⟨rfl, rfl, rfl, ?_, ?_⟩
    · intro w hw
      exact Option.noConfusion hw
    · intro _
      refine ⟨rfl, ?_⟩
      intro s hmem
      cases sl <;> cases ss <;> cases sc <;> simp [launchFresh] at hmem

/-- C4 (amended): on every reconnection failure against a persisted
descriptor (thrown reconnect on a well-formed descriptor, or a malformed
descriptor), `ensureBrowser` swallows the failure and falls through to a
fresh launch (it is total — no error reaches the caller — and does not
reuse the old session), deletes the stale descriptor first, clears all
known singleton lock artifacts, and then — only if the freshly launched
browser exposes a ws endpoint — persists a new descriptor with
`loggedIn = false` and `formFilled = false` as the final file operation;
with no endpoint, no descriptor is written at all. -/
theorem c4_reconnect_failure_fallback (fs : FS) (env : EBEnv)
    (hfail : fs.session = some SessionBlob.malformed ∨
      (env.reconnect = ReconnectOutcome.throwErr ∧
        ∃ s, fs.session = some (SessionBlob.valid s))) :
    (ensureBrowser fs env).2.2 = false ∧
    (ensureBrowser fs env).2.1.head? = some FsOp.delSession ∧
    (ensureBrowser fs env).1.singletonLock = false ∧
    (ensureBrowser fs env).1.singletonSocket = false ∧
    (ensureBrowser fs env).1.singletonCookie = false ∧
    (∀ w, env.wsEndpoint = some w →
      (ensureBrowser fs env).1.session =
        some (SessionBlob.valid ⟨w, env.nowStr, false, false⟩) ∧
      (ensureBrowser fs env).2.1.getLast? =
        some (FsOp.writeSession ⟨w, env.nowStr, false, false⟩)) ∧
    (env.wsEndpoint = none →
      (ensureBrowser fs env).1.session = none ∧
      ∀ s, FsOp.writeSession s ∉ (ensureBrowser fs env).2.1) := by
  have heq : ensureBrowser fs env =
      ((launchFresh { fs with session := none } env).1,
       FsOp.delSession :: (launchFresh { fs with session := none } env).2, false) := by
    rcases hfail with hm | ⟨hrc, s, hs⟩
    · unfold ensureBrowser
      rw [hm]
    · unfold ensureBrowser
      rw [hs, hrc]
  obtain ⟨h1, h2, h3, h4, h5⟩ := launchFresh_spec { fs with session := none } env
  rw [heq]
  refine ⟨rfl, rfl, h1, h2, h3, ?_, ?_⟩
  · intro w hw
    obtain ⟨hsess, t, ht⟩ := h4 w hw
    refine ⟨hsess, ?_⟩
    show (FsOp.delSession :: (launchFresh { fs with session := none } env).2).getLast? = _
    rw [ht]
    exact getLast?_cons_append_singleton _ _ _
  · intro hn
    obtain ⟨hsess, hnw⟩ := h5 hn
    refine ⟨hsess, ?_⟩
    intro s hmem
    rcases List.mem_cons.mp hmem with hcase | hcase
    · exact FsOp.noConfusion hcase
    · exact hnw s hcase

/-- C4 witness: a stale descriptor whose reconnection throws, with a
lock artifact present and a launch that does expose a ws endpoint. -/
theorem c4_reconnect_failure_fallback_witness :
    (ensureBrowser c4cexFS c4wEnv).1.session =
      some (SessionBlob.valid ⟨"ws://new", "t1", false, false⟩) ∧
    (ensureBrowser c4cexFS c4wEnv).2.1.getLast? =
      some (FsOp.writeSession ⟨"ws://new", "t1", false, false⟩) ∧
    (ensureBrowser c4cexFS c4wEnv).2.1.head? = some FsOp.delSession := by
  have h := c4_reconnect_failure_fallback c4cexFS c4wEnv
    (Or.inr ⟨rfl, ⟨⟨"ws://old", "t0", true, true⟩, rfl⟩⟩)
  exact ⟨(h.2.2.2.2.2.1 ("ws://new") rfl).1, (h.2.2.2.2.2.1 ("ws://new") rfl).2, h.2.1⟩

/-- C4 counterexample: the claim says the fresh launch after a
reconnection failure persists a new descriptor with both flags false.
When the launched browser exposes no ws endpoint (the guarded
`if (wsEndpoint)` at source line 188 is false) nothing is persisted:
the stale descriptor is deleted and the file operations end after the
singleton cleanup. -/
theorem c4_no_descriptor_persisted_counterexample :
    (ensureBrowser c4cexFS c4cexEnv).1.session = none ∧
    (ensureBrowser c4cexFS c4cexEnv).2.1 =
      [FsOp.delSession, FsOp.delSingleton ("SingletonLock")] :=
  ⟨rfl, rfl⟩

/-- C1 (amended): whenever the descriptor read by `submit` after page
acquisition still records `formFilled = false`, `submit` returns the
precondition error and performs zero page interactions. -/
theorem c1_submit_precondition_guard (fs : FS) (env : SubmitEnv) (s : SessionInfo)
    (hsess : (ensureBrowser fs env.eb).1.session = some (SessionBlob.valid s))
    (hff : s.formFilled = false) :
    submit fs env =
      Except.ok
        ({ error := true,
           message := some ("Form has not been filled yet. Call fill-form first.") },
         ([] : List PageInteraction)) := by
  simp only [submit, hsess, hff]
  simp

/-- C1 witness: live reconnection, descriptor has `formFilled = false`. -/
theorem c1_submit_precondition_guard_witness :
    submit c1wFS c1wEnv =
      Except.ok
        ({ error := true,
           message := some ("Form has not been filled yet. Call fill-form first.") },
         ([] : List PageInteraction)) :=
  c1_submit_precondition_guard c1wFS c1wEnv ⟨"ws://live", "t0", false, true⟩ rfl rfl

/-- C1 counterexample: the descriptor records `formFilled = false`, but
reconnection to it fails and the fresh launch exposes no ws endpoint, so
`ensureBrowser` deletes the descriptor without replacement; `submit`
then finds no descriptor file, skips the precondition check, and drives
the full click/screenshot pipeline to a success result instead of
returning an error with zero page interactions. -/
theorem c1_submit_skips_precondition_counterexample :
    c1cexFS.session = some (SessionBlob.valid ⟨"ws://old", "t0", false, false⟩) ∧
    submit c1cexFS c1cexEnv =
      Except.ok
        ({ success := true,
           screenshot := some ("/home/USER/biz/.playwright-mcp/ups-confirmation-7.png"),
           reviewScreenshot := some ("/home/USER/biz/.playwright-mcp/ups-review-7.png"),
           confirmation := some ({}),
           message := some ("Collection submitted successfully.") },
         c1cexTrace) ∧
    c1cexTrace ≠ ([] : List PageInteraction) := by
  refine ⟨rfl, rfl, by decide⟩

/-- C2 (amended): every result returned by `fillForm`, `submit` or
`book` carries at least one screenshot path — with the single exception
of the `submit` precondition-violation error (`formFilled = false`),
which returns before any page interaction and carries no screenshot. -/
theorem c2_results_carry_screenshots :
    (∀ env opts r calls pg, fillForm env opts = Except.ok (r, calls, pg) →
      hasScreenshot r = true) ∧
    (∀ fs env r tr, submit fs env = Except.ok (r, tr) →
      r.message ≠ some ("Form has not been filled yet. Call fill-form first.") →
      hasScreenshot r = true) ∧
    (∀ env opts r, book env opts = Except.ok r → hasScreenshot r = true) := by
  refine ⟨?_, ?_, ?_⟩
  · intro env opts r calls pg h
    exact (fillForm_ok_cases env opts r calls pg h).2.1
  · intro fs env r tr h hmsg
    simp only [submit] at h
    split at h
    · cases h
    · split at h
      · simp only [Except.ok.injEq, Prod.mk.injEq] at h
        obtain ⟨hr, htr⟩ := h
        subst hr
        exact absurd rfl hmsg
      · simp only [Except.ok.injEq] at h
        have hr : (submitBody env).1 = r := by rw [h]
        rw [← hr]
        exact submitBody_screenshot env
    · simp only [Except.ok.injEq] at h
      have hr : (submitBody env).1 = r := by rw [h]
      rw [← hr]
      exact submitBody_screenshot env
  · intro env opts r h
    simp only [book] at h
    split at h
    · cases h
    · rename_i fr heq
      obtain ⟨hp, hscr, _⟩ :=
        fillForm_ok_cases env.fill opts fr.1 fr.2.1 fr.2.2 (by rw [heq])
      split at h
      · simp only [Except.ok.injEq] at h
        subst h
        exact hscr
      · split at h
        · rename_i heq2
          rw [hp] at heq2
          cases heq2
        · split at h
          · simp only [Except.ok.injEq] at h
            subst h
            simp [hasScreenshot]
          · simp only [Except.ok.injEq] at h
            subst h
            simp [hasScreenshot]

/-- C2 witness: a successful `book` result carries a screenshot. -/
theorem c2_results_carry_screenshots_witness :
    hasScreenshot c2wRes = true :=
  c2_results_carry_screenshots.2.2 c2wEnv {} c2wRes rfl

/-- C2 counterexample: the `submit` precondition error is returned after
`ensureBrowser` acquired a live page (the session was reused), yet it
carries no screenshot path at all. -/
theorem c2_missing_screenshot_counterexample :
    submit c2cexFS c2cexEnv = Except.ok (c2cexResult, ([] : List PageInteraction)) ∧
    hasScreenshot c2cexResult = false :=
  ⟨rfl, rfl⟩

end UPSSpec
